import Mathlib

/-!
Verification of the Deribit VBI (volatility breakout indicator) core.

Shallow embedding of `src/deribit.py`.  Implied volatilities, strikes and
spot prices (Python floats) are modelled as rationals; epoch-millisecond
timestamps as integers; Python `None` as `Option.none`; dicts returned by
`compute_vbi` as record types (a key that the dict never contains is a
field constantly `none`).  Network fetching is I/O glue: `compute_vbi`
receives the fetched data (option list, spot, a book lookup) as arguments.
The only exception (`try`/`except`) source reachable inside the modelled
data flow is the skew division `np["mark_iv"] / nc["mark_iv"]` at line 263,
which raises `TypeError` when the near-put mark IV is `None` while the
near-call mark IV is non-zero truthy; it is modelled with `Except`.
Python `round(x, n)` is modelled on exact rationals with half-to-even.
-/

namespace Deribit

/-! ### Configuration constants (deribit.py lines 43-55) -/

def IV_SLOPE_STRONG : ℚ := 6
def IV_SLOPE_MEDIUM : ℚ := 3

def SKEW_NEUTRAL_BAND : ℚ := 0.05
def SKEW_EXTREME_BAND : ℚ := 0.15

def PATTERN_WINDOW : ℕ := 3
def NEAR_IV_STABILITY : ℚ := 0.02

def NEAR_DTE_RANGE : ℚ × ℚ := (3, 14)
def MID_DTE_RANGE : ℚ × ℚ := (14, 45)
def FAR_DTE_RANGE : ℚ × ℚ := (45, 120)

/-! ### Data model -/

/-- One option instrument as returned by the provider (the fields the core
reads).  `instrument_name` is an abstract identifier used for book lookup. -/
structure Instrument where
  expiration_timestamp : ℤ
  option_type : String
  strike : ℚ
  instrument_name : ℕ
deriving DecidableEq

/-- One book summary: the mark implied volatility, possibly `None`. -/
structure Book where
  mark_iv : Option ℚ
deriving DecidableEq

/-- The data one `compute_vbi` call fetches from the provider: `now` is the
epoch-ms clock value, `options` the unexpired option list, `spot` the index
price, `books` the book-summary lookup by instrument name (`none` models
`get_book` returning `None`). -/
structure MarketInput where
  now : ℤ
  options : List Instrument
  spot : ℚ
  books : ℕ → Option Book

/-- Per-currency rolling history (deribit.py lines 207-208): two deques of
maxlen `PATTERN_WINDOW = 3`, oldest first. -/
structure VbiState where
  ivSlopeHist : List ℚ
  nearIvHist : List ℚ
deriving DecidableEq

/-- The fields of the `status = "ok"` result dict (deribit.py lines
296-309).  The dict built there has no `vbi_pattern` key, so that field is
constantly `none` in every result the code produces. -/
structure OkData where
  vbi_state : String
  vbi_score : ℤ
  near_iv : ℚ
  mid_iv : ℚ
  far_iv : ℚ
  iv_slope : ℚ
  curvature : ℚ
  skew : Option ℚ
  vbi_pattern : Option String
deriving DecidableEq

/-- A `compute_vbi` result: the ok dict or the degraded dict (reason,
vbi_state, vbi_score fields of the dict built by `degraded`). -/
inductive VbiResult where
  | okResult (d : OkData)
  | degradedResult (reason : String) (vbi_state : String) (vbi_score : Option ℤ)
deriving DecidableEq

/-- `degraded` (deribit.py lines 212-222): the degraded result dict. -/
def degraded (reason : String) : VbiResult :=
  VbiResult.degradedResult reason "DEGRADED" none

/-! ### Python `round` on exact rationals (half-to-even) -/

/-- Python's `round(x, ndigits)`, modelled on the exact rational value with
ties going to the even integer of the scaled value. -/
def pyRound (ndigits : ℕ) (x : ℚ) : ℚ :=
  let m : ℚ := (10 : ℚ) ^ ndigits
  let y := x * m
  let f : ℤ := ⌊y⌋
  let frac := y - (f : ℚ)
  let r : ℤ :=
    if frac < 1/2 then f
    else if 1/2 < frac then f + 1
    else if f % 2 = 0 then f else f + 1
  (r : ℚ) / m

/-! ### Maturity ladder selection (deribit.py lines 65-66, 174-196) -/

/-- `dte_days` (line 65): real-valued days to expiry. -/
def dte_days (now exp_ts : ℤ) : ℚ :=
  ((exp_ts - now : ℤ) : ℚ) / 86400000

/-- Python's `min(l, key=key)`: fold keeping the earlier element on ties
(replacement only on a strictly smaller key); `none` on the empty list. -/
def pyMinBy {α : Type} (key : α → ℚ) : List α → Option α
  | [] => none
  | x :: xs => some (xs.foldl (fun b a => if key a < key b then a else b) x)

/-- Reference form of `pyMinBy`: the first element attaining the minimal
key, by structural recursion. -/
def firstMinBy {α : Type} (key : α → ℚ) : List α → Option α
  | [] => none
  | a :: t =>
    match firstMinBy key t with
    | none => some a
    | some y => if key y < key a then some y else some a

/-- The `elif` chain of `pick_rolling_expiries` (lines 177-184): every
option's expiration timestamp is appended to the first DTE bucket whose
inclusive range contains its days-to-expiry, in iteration order. -/
def fillBuckets (now : ℤ) : List Instrument → List ℤ × List ℤ × List ℤ
  | [] => ([], [], [])
  | o :: os =>
    let r := fillBuckets now os
    let d := dte_days now o.expiration_timestamp
    let e := o.expiration_timestamp
    if NEAR_DTE_RANGE.1 ≤ d ∧ d ≤ NEAR_DTE_RANGE.2 then (e :: r.1, r.2.1, r.2.2)
    else if MID_DTE_RANGE.1 ≤ d ∧ d ≤ MID_DTE_RANGE.2 then (r.1, e :: r.2.1, r.2.2)
    else if FAR_DTE_RANGE.1 ≤ d ∧ d ≤ FAR_DTE_RANGE.2 then (r.1, r.2.1, e :: r.2.2)
    else r

/-- Midpoint `sum(target) / 2` of a DTE range (line 189). -/
def bucketMid (target : ℚ × ℚ) : ℚ := (target.1 + target.2) / 2

/-- Inner `pick` of `pick_rolling_expiries` (lines 186-190): the bucket
member whose DTE is closest to the range midpoint, first on ties. -/
def pick (now : ℤ) (ts_list : List ℤ) (target : ℚ × ℚ) : Option ℤ :=
  pyMinBy (fun ts => |dte_days now ts - bucketMid target|) ts_list

/-- `pick_rolling_expiries` (lines 174-196). -/
def pick_rolling_expiries (now : ℤ) (options : List Instrument) :
    Option ℤ × Option ℤ × Option ℤ :=
  let b := fillBuckets now options
  (pick now b.1 NEAR_DTE_RANGE, pick now b.2.1 MID_DTE_RANGE, pick now b.2.2 FAR_DTE_RANGE)

/-- `atm_option` (lines 198-203): among instruments matching expiry and
side exactly, the one minimising `abs(strike - spot)`, first on ties. -/
def atm_option (options : List Instrument) (exp : ℤ) (opt_type : String) (spot : ℚ) :
    Option Instrument :=
  pyMinBy (fun o => |o.strike - spot|)
    (options.filter fun o =>
      decide (o.expiration_timestamp = exp ∧ o.option_type = opt_type))

/-! ### Scoring (deribit.py lines 258-309) -/

/-- Deque append with maxlen `cap`: oldest entries evicted first. -/
def dequeAppend (cap : ℕ) (xs : List ℚ) (x : ℚ) : List ℚ :=
  let ys := xs ++ [x]
  ys.drop (ys.length - cap)

/-- The two slope rules (lines 273-276): `+40` if `iv_slope > 3.0`, plus
`+20` if `iv_slope > 6.0`. -/
def slopeBonus (iv_slope : ℚ) : ℤ :=
  (if IV_SLOPE_MEDIUM < iv_slope then 40 else 0) +
  (if IV_SLOPE_STRONG < iv_slope then 20 else 0)

/-- Arithmetic mean `sum(l) / len(l)` of a list of rationals. -/
def meanQ (l : List ℚ) : ℚ := l.sum / (l.length : ℚ)

/-- The historical rule (lines 281-283): `+20` if the (just-updated)
near-IV history holds at least `PATTERN_WINDOW` entries and the current
`near_iv` strictly exceeds its mean. -/
def histBonus (hist : List ℚ) (near_iv : ℚ) : ℤ :=
  if PATTERN_WINDOW ≤ hist.length ∧ meanQ hist < near_iv then 20 else 0

/-- The two skew rules (lines 285-289), evaluated only when `skew` is not
`None`: `+10` inside the neutral band, `-10` inside the extreme band. -/
def skewAdj (skew : Option ℚ) : ℤ :=
  match skew with
  | none => 0
  | some s =>
    (if |s - 1| < SKEW_NEUTRAL_BAND then 10 else 0) +
    (if SKEW_EXTREME_BAND < |s - 1| then (-10) else 0)

/-- Line 263: `skew = np["mark_iv"] / nc["mark_iv"] if nc["mark_iv"] else
None`.  The condition is Python truthiness of the near-call mark IV (a
number here, so: non-zero); when it holds and the near-put mark IV is
`None`, the division raises `TypeError` (modelled as `Except.error`). -/
def computeSkew (nc_iv : ℚ) (np_iv : Option ℚ) : Except Unit (Option ℚ) :=
  if nc_iv = 0 then Except.ok none
  else
    match np_iv with
    | some p => Except.ok (some (p / nc_iv))
    | none => Except.error ()

/-- Line 292: `"COLD" if score < 30 else "WARM" if score <= 60 else "HOT"`. -/
def stateOf (score : ℤ) : String :=
  if score < 30 then "COLD" else if score ≤ 60 then "WARM" else "HOT"

/-- Line 308: `round(skew, 3) if skew else None` — Python truthiness again,
so a computed skew of exactly `0` is reported as `None`. -/
def skewField (skew : Option ℚ) : Option ℚ :=
  match skew with
  | some s => if s = 0 then none else some (pyRound 3 s)
  | none => none

/-- The raw additive/subtractive score (lines 272-289): the sequential
`score += ...` updates commute, so they are written as one sum; the
historical rule reads the just-updated near-IV history `nearHist2`. -/
def rawScore (iv_slope : ℚ) (nearHist2 : List ℚ) (near_iv : ℚ) (skew : Option ℚ) : ℤ :=
  slopeBonus iv_slope + histBonus nearHist2 near_iv + skewAdj skew

/-- Line 291: `score = max(0, min(score, 100))`. -/
def clampScore (s : ℤ) : ℤ := max 0 (min s 100)

/-- Lines 258-309 of `compute_vbi`, from the point where `near_iv`,
`mid_iv`, `far_iv` are known non-`None`: slope/curvature/skew, scoring,
history append, clamp, state, and the ok result dict.  The `TypeError` of
the skew division propagates to the outer `except` as
`degraded("exception")` before any history append. -/
def scoreStep (near_iv : ℚ) (np_iv : Option ℚ) (mid_iv far_iv : ℚ) (st : VbiState) :
    VbiResult × VbiState :=
  let iv_slope := mid_iv - near_iv
  let curvature := (far_iv - mid_iv) - (mid_iv - near_iv)
  match computeSkew near_iv np_iv with
  | Except.error _ => (degraded "exception", st)
  | Except.ok skew =>
    let slopeHist2 := dequeAppend PATTERN_WINDOW st.ivSlopeHist iv_slope
    let nearHist2 := dequeAppend PATTERN_WINDOW st.nearIvHist near_iv
    let score := clampScore (rawScore iv_slope nearHist2 near_iv skew)
    (VbiResult.okResult
      { vbi_state := stateOf score
        vbi_score := score
        near_iv := pyRound 2 near_iv
        mid_iv := pyRound 2 mid_iv
        far_iv := pyRound 2 far_iv
        iv_slope := pyRound 2 iv_slope
        curvature := pyRound 2 curvature
        skew := skewField skew
        vbi_pattern := none },
     ⟨slopeHist2, nearHist2⟩)

/-- `compute_vbi` (lines 224-313) on already-fetched data, threading the
per-currency rolling history explicitly.  The guard `if not exp1 or not
exp2 or not exp3` is Python truthiness: `None` and the timestamp `0` are
both falsy. -/
def compute_vbi (inp : MarketInput) (st : VbiState) : VbiResult × VbiState :=
  match pick_rolling_expiries inp.now inp.options with
  | (some e1, some e2, some e3) =>
    if e1 = 0 ∨ e2 = 0 ∨ e3 = 0 then (degraded "no_expiries", st)
    else
      match atm_option inp.options e1 "call" inp.spot,
            atm_option inp.options e1 "put" inp.spot,
            atm_option inp.options e2 "call" inp.spot,
            atm_option inp.options e3 "call" inp.spot with
      | some n_call, some n_put, some m_call, some f_call =>
        match inp.books n_call.instrument_name, inp.books n_put.instrument_name,
              inp.books m_call.instrument_name, inp.books f_call.instrument_name with
        | some nc, some npb, some mc, some fc =>
          match nc.mark_iv, mc.mark_iv, fc.mark_iv with
          | some near_iv, some mid_iv, some far_iv =>
            scoreStep near_iv npb.mark_iv mid_iv far_iv st
          | _, _, _ => (degraded "no_iv", st)
        | _, _, _, _ => (degraded "no_book", st)
      | _, _, _, _ => (degraded "no_atm", st)
  | _ => (degraded "no_expiries", st)

/-- Projection: the `skew` field of an ok result, `none` for degraded. -/
def okSkew : VbiResult → Option (Option ℚ)
  | VbiResult.okResult d => some d.skew
  | VbiResult.degradedResult _ _ _ => none

/-- Projection: the `vbi_pattern` field of an ok result. -/
def okPattern : VbiResult → Option (Option String)
  | VbiResult.okResult d => some d.vbi_pattern
  | VbiResult.degradedResult _ _ _ => none

/-! ### Orchestrator alerting state machine (deribit.py lines 343-364) -/

/-- Per-currency degraded-streak alerting state: `degraded_cycles` counter
and `degraded_alert_sent` latch (lines 35-36). -/
structure AlertState where
  degraded_cycles : ℕ
  alert_sent : Bool
deriving DecidableEq

/-- One orchestrator update for one currency (lines 348-364): on a
degraded result increment the counter and fire the alert when it has
reached 3 and the latch is clear (then latch); on an ok result reset both.
The returned `Bool` is whether the Telegram alert fired. -/
def alertStep (st : AlertState) (isDeg : Bool) : AlertState × Bool :=
  if isDeg then
    let c := st.degraded_cycles + 1
    if 3 ≤ c ∧ st.alert_sent = false then (⟨c, true⟩, true)
    else (⟨c, st.alert_sent⟩, false)
  else (⟨0, false⟩, false)

/-- Run the alerting state machine over a sequence of cycle outcomes
(`true` = degraded), returning the fired-alert flags in order. -/
def runAlerts (st : AlertState) : List Bool → List Bool
  | [] => []
  | b :: bs =>
    let p := alertStep st b
    p.2 :: runAlerts p.1 bs

/-- Final state after running the alerting machine over a sequence. -/
def runAlertsSt (st : AlertState) : List Bool → AlertState
  | [] => st
  | b :: bs => runAlertsSt (alertStep st b).1 bs

/-- Length of the streak of consecutive `true`s ending at each position,
starting from a carried-in streak length `c`. -/
def streaks (c : ℕ) : List Bool → List ℕ
  | [] => []
  | b :: bs =>
    let c2 := if b then c + 1 else 0
    c2 :: streaks c2 bs

/-- The streak length at the end of the sequence. -/
def streakEnd (c : ℕ) (l : List Bool) : ℕ :=
  l.foldl (fun a b => if b then a + 1 else 0) c

/-! ### Spec-side pattern classification (spec section 4.4 step 9) -/

/-- The pattern classification the specification describes (spec 4.4 step
9), stated from the spec's words for comparison with the code: `s`/`n` are
the three most recent slope / near-IV history entries oldest→newest,
`PRE_BREAK` needs strictly increasing slopes, a near-IV band tight
relative to the current `near_iv`, a present near-neutral skew and positive
curvature; `POST_EVENT` (evaluated after, overriding) needs a strongly
negative slope, negative curvature and `near_iv` below the second-most-
recent near-IV entry; otherwise (or with fewer than 3 entries) `NEUTRAL`. -/
def skewNeutral (skew : Option ℚ) : Prop :=
  match skew with
  | some k => |k - 1| < SKEW_NEUTRAL_BAND
  | none => False

instance (sk : Option ℚ) : Decidable (skewNeutral sk) :=
  match sk with
  | some k => inferInstanceAs (Decidable (|k - 1| < SKEW_NEUTRAL_BAND))
  | none => inferInstanceAs (Decidable False)

def spec_vbi_pattern (slopeHist nearHist : List ℚ) (near_iv iv_slope curvature : ℚ)
    (skew : Option ℚ) : String :=
  if slopeHist.length < PATTERN_WINDOW then "NEUTRAL"
  else
    let s := slopeHist.drop (slopeHist.length - 3)
    let n := nearHist.drop (nearHist.length - 3)
    if iv_slope < -2 ∧ curvature < 0 ∧ near_iv < n.getD 1 0 then "POST_EVENT"
    else if (s.getD 0 0 < s.getD 1 0 ∧ s.getD 1 0 < s.getD 2 0) ∧
        n.foldr max (n.getD 0 0) - n.foldr min (n.getD 0 0) < NEAR_IV_STABILITY * near_iv ∧
        skewNeutral skew ∧ 0 < curvature then "PRE_BREAK"
    else "NEUTRAL"

/-! ### Concrete scenario data

A shared option chain at `now = 0`: one expiry in each DTE bucket
(8 days, 30 days, 80 days), a near call/put pair and mid/far calls, all
struck at the spot of 100.  The three market inputs differ only in the
book data. -/

def optsA : List Instrument :=
  [ ⟨691200000, "call", 100, 1⟩
  , ⟨691200000, "put", 100, 2⟩
  , ⟨2592000000, "call", 100, 3⟩
  , ⟨6912000000, "call", 100, 4⟩ ]

/-- Books with near call/put IV 12/12, mid 16, far 21. -/
def exInput1 : MarketInput :=
  { now := 0, options := optsA, spot := 100
    books := fun n =>
      if n = 1 then some ⟨some 12⟩
      else if n = 2 then some ⟨some 12⟩
      else if n = 3 then some ⟨some 16⟩
      else if n = 4 then some ⟨some 21⟩
      else none }

/-- Books with near call IV 50 and near put IV 0 (computed skew 0). -/
def exInput2 : MarketInput :=
  { now := 0, options := optsA, spot := 100
    books := fun n =>
      if n = 1 then some ⟨some 50⟩
      else if n = 2 then some ⟨some 0⟩
      else if n = 3 then some ⟨some 52⟩
      else if n = 4 then some ⟨some 53⟩
      else none }

/-- Books with the near-put mark IV `None` (the rest present). -/
def exInput3 : MarketInput :=
  { now := 0, options := optsA, spot := 100
    books := fun n =>
      if n = 1 then some ⟨some 12⟩
      else if n = 2 then some ⟨none⟩
      else if n = 3 then some ⟨some 16⟩
      else if n = 4 then some ⟨some 17⟩
      else none }

/-- An empty option chain. -/
def exInput0 : MarketInput :=
  { now := 0, options := [], spot := 100, books := fun _ => none }

/-- The empty per-currency history. -/
def st0 : VbiState := ⟨[], []⟩

/-- A history two cycles before the pattern window fills: slopes rising,
near IVs flat. -/
def stHist1 : VbiState := ⟨[1, 2], [12, 12]⟩

/-- The ok result of `compute_vbi exInput1 stHist1`. -/
def okData1 : OkData :=
  { vbi_state := "WARM", vbi_score := 50, near_iv := 12, mid_iv := 16, far_iv := 21,
    iv_slope := 4, curvature := 1, skew := some 1, vbi_pattern := none }

/-- The ok result of `compute_vbi exInput2 st0`. -/
def okData2 : OkData :=
  { vbi_state := "COLD", vbi_score := 0, near_iv := 50, mid_iv := 52, far_iv := 53,
    iv_slope := 2, curvature := -1, skew := none, vbi_pattern := none }

/-- The ok result of `scoreStep 50 (some 52) 52 53 st0` (the spec scenario
`near_call_iv=50, near_put_iv=52`). -/
def okData2b : OkData :=
  { vbi_state := "COLD", vbi_score := 10, near_iv := 50, mid_iv := 52, far_iv := 53,
    iv_slope := 2, curvature := -1, skew := some (26/25), vbi_pattern := none }

/-- The ok result of `scoreStep 12 (some 12) 16 17 st0` (the spec scenario
`near_iv=12, mid_iv=16, far_iv=17`). -/
def okData3 : OkData :=
  { vbi_state := "WARM", vbi_score := 50, near_iv := 12, mid_iv := 16, far_iv := 17,
    iv_slope := 4, curvature := -3, skew := some 1, vbi_pattern := none }

/-! ### Helper lemmas: Python `min` and `firstMinBy` -/

/-- Combine a fold seed with an optional candidate minimum. -/
def minWith {α : Type} (key : α → ℚ) (x : α) : Option α → α
  | none => x
  | some y => if key y < key x then y else x

lemma minWith_none {α : Type} (key : α → ℚ) (x : α) : minWith key x none = x := rfl

lemma minWith_some {α : Type} (key : α → ℚ) (x y : α) :
    minWith key x (some y) = if key y < key x then y else x := rfl

lemma firstMinBy_nil {α : Type} (key : α → ℚ) : firstMinBy key ([] : List α) = none := rfl

lemma firstMinBy_cons {α : Type} (key : α → ℚ) (a : α) (t : List α) :
    firstMinBy key (a :: t) =
      match firstMinBy key t with
      | none => some a
      | some y => if key y < key a then some y else some a := rfl

lemma firstMinBy_cons_none {α : Type} {key : α → ℚ} {t : List α} (a : α)
    (h : firstMinBy key t = none) : firstMinBy key (a :: t) = some a := by
  rw [firstMinBy_cons, h]

lemma firstMinBy_cons_some {α : Type} {key : α → ℚ} {t : List α} {y : α} (a : α)
    (h : firstMinBy key t = some y) :
    firstMinBy key (a :: t) = if key y < key a then some y else some a := by
  rw [firstMinBy_cons, h]

lemma foldl_min_eq {α : Type} (key : α → ℚ) (l : List α) (x : α) :
    l.foldl (fun b a => if key a < key b then a else b) x = minWith key x (firstMinBy key l) := by
  induction l generalizing x with
  | nil => rfl
  | cons a t ih =>
    rw [List.foldl_cons, ih]
    rcases ht : firstMinBy key t with _ | y
    · rw [firstMinBy_cons_none a ht, minWith_none, minWith_some]
    · rw [firstMinBy_cons_some a ht]
      by_cases h1 : key y < key a
      · rw [if_pos h1, minWith_some, minWith_some]
        by_cases h2 : key a < key x
        · rw [if_pos h2, if_pos h1, if_pos (lt_trans h1 h2)]
        · rw [if_neg h2]
      · rw [if_neg h1, minWith_some, minWith_some]
        by_cases h2 : key a < key x
        · rw [if_pos h2, if_neg h1]
        · rw [if_neg h2]
          by_cases h3 : key y < key x
          · exact absurd (lt_of_lt_of_le h3 (not_lt.mp h2)) h1
          · rw [if_neg h3]

lemma pyMinBy_eq_firstMinBy {α : Type} (key : α → ℚ) (l : List α) :
    pyMinBy key l = firstMinBy key l := by
  cases l with
  | nil => rfl
  | cons x xs =>
    show some (xs.foldl (fun b a => if key a < key b then a else b) x) = _
    rw [foldl_min_eq]
    rcases h : firstMinBy key xs with _ | y
    · rw [firstMinBy_cons_none x h, minWith_none]
    · rw [firstMinBy_cons_some x h, minWith_some]
      split_ifs <;> rfl

lemma firstMinBy_none_iff {α : Type} (key : α → ℚ) (l : List α) :
    firstMinBy key l = none ↔ l = [] := by
  cases l with
  | nil => simp [firstMinBy_nil]
  | cons a t =>
    rcases h : firstMinBy key t with _ | y
    · rw [firstMinBy_cons_none a h]; simp
    · rw [firstMinBy_cons_some a h]
      split_ifs <;> simp

lemma firstMinBy_mem {α : Type} (key : α → ℚ) (l : List α) (x : α)
    (h : firstMinBy key l = some x) : x ∈ l := by
  induction l with
  | nil => simp [firstMinBy_nil] at h
  | cons a t ih =>
    rcases ht : firstMinBy key t with _ | y
    · rw [firstMinBy_cons_none a ht] at h
      simp only [Option.some.injEq] at h
      simp [h]
    · rw [firstMinBy_cons_some a ht] at h
      split_ifs at h <;> simp only [Option.some.injEq] at h
      · subst h; exact List.mem_cons_of_mem a (ih ht)
      · simp [h]

lemma firstMinBy_le {α : Type} (key : α → ℚ) (l : List α) :
    ∀ x, firstMinBy key l = some x → ∀ u ∈ l, key x ≤ key u := by
  induction l with
  | nil => intro x h; simp [firstMinBy_nil] at h
  | cons a t ih =>
    intro x h u hu
    rcases ht : firstMinBy key t with _ | y
    · rw [firstMinBy_cons_none a ht] at h
      simp only [Option.some.injEq] at h
      subst h
      have ht' : t = [] := (firstMinBy_none_iff key t).mp ht
      subst ht'
      simp only [List.mem_singleton] at hu
      simp [hu]
    · rw [firstMinBy_cons_some a ht] at h
      rcases List.mem_cons.mp hu with hu | hu
      · subst hu
        split_ifs at h with hlt <;> simp only [Option.some.injEq] at h <;> subst h
        · exact le_of_lt hlt
        · exact le_refl _
      · split_ifs at h with hlt <;> simp only [Option.some.injEq] at h <;> subst h
        · exact ih y ht u hu
        · exact le_trans (not_lt.mp hlt) (ih y ht u hu)

lemma firstMinBy_first {α : Type} (key : α → ℚ) (l : List α) (x : α)
    (h : firstMinBy key l = some x) :
    ∃ l1 l2, l = l1 ++ x :: l2 ∧ ∀ u ∈ l1, key x < key u := by
  induction l with
  | nil => simp [firstMinBy_nil] at h
  | cons a t ih =>
    rcases ht : firstMinBy key t with _ | y
    · rw [firstMinBy_cons_none a ht] at h
      simp only [Option.some.injEq] at h
      subst h
      exact ⟨[], t, rfl, by simp⟩
    · rw [firstMinBy_cons_some a ht] at h
      split_ifs at h with hlt <;> simp only [Option.some.injEq] at h <;> subst h
      · obtain ⟨l1, l2, hsplit, hfirst⟩ := ih ht
        refine ⟨a :: l1, l2, by simp [hsplit], ?_⟩
        intro u hu
        rcases List.mem_cons.mp hu with hu | hu
        · subst hu; exact hlt
        · exact hfirst u hu
      · exact ⟨[], t, rfl, by simp⟩

/-! ### Helper lemmas: scoreStep and compute_vbi case analysis -/

lemma scoreStep_error {near_iv : ℚ} {np_iv : Option ℚ} (mid_iv far_iv : ℚ) (st : VbiState)
    (h : computeSkew near_iv np_iv = Except.error ()) :
    scoreStep near_iv np_iv mid_iv far_iv st = (degraded "exception", st) := by
  unfold scoreStep
  rw [h]

lemma scoreStep_ok {near_iv : ℚ} {np_iv : Option ℚ} (mid_iv far_iv : ℚ) (st : VbiState)
    {skew : Option ℚ} (h : computeSkew near_iv np_iv = Except.ok skew) :
    scoreStep near_iv np_iv mid_iv far_iv st =
      (VbiResult.okResult
        { vbi_state := stateOf (clampScore (rawScore (mid_iv - near_iv)
            (dequeAppend PATTERN_WINDOW st.nearIvHist near_iv) near_iv skew))
          vbi_score := clampScore (rawScore (mid_iv - near_iv)
            (dequeAppend PATTERN_WINDOW st.nearIvHist near_iv) near_iv skew)
          near_iv := pyRound 2 near_iv
          mid_iv := pyRound 2 mid_iv
          far_iv := pyRound 2 far_iv
          iv_slope := pyRound 2 (mid_iv - near_iv)
          curvature := pyRound 2 ((far_iv - mid_iv) - (mid_iv - near_iv))
          skew := skewField skew
          vbi_pattern := none },
       ⟨dequeAppend PATTERN_WINDOW st.ivSlopeHist (mid_iv - near_iv),
        dequeAppend PATTERN_WINDOW st.nearIvHist near_iv⟩) := by
  unfold scoreStep
  rw [h]

/-- Every `compute_vbi` outcome is either a degraded result with the
state unchanged, or the result of `scoreStep` on the selected IVs. -/
lemma compute_vbi_cases (inp : MarketInput) (st : VbiState) :
    (∃ reason, compute_vbi inp st = (degraded reason, st)) ∨
    (∃ near_iv np_iv mid_iv far_iv,
       compute_vbi inp st = scoreStep near_iv np_iv mid_iv far_iv st) := by
  unfold compute_vbi
  split
  · split
    · exact Or.inl ⟨"no_expiries", rfl⟩
    · split
      · split
        · split
          · exact Or.inr ⟨_, _, _, _, rfl⟩
          · exact Or.inl ⟨"no_iv", rfl⟩
        · exact Or.inl ⟨"no_book", rfl⟩
      · exact Or.inl ⟨"no_atm", rfl⟩
  · exact Or.inl ⟨"no_expiries", rfl⟩

/-- A `compute_vbi` ok result comes from `scoreStep` with the state
threaded unchanged into it. -/
lemma compute_vbi_ok {inp : MarketInput} {st : VbiState} {d : OkData}
    (h : (compute_vbi inp st).1 = VbiResult.okResult d) :
    ∃ near_iv np_iv mid_iv far_iv,
      compute_vbi inp st = scoreStep near_iv np_iv mid_iv far_iv st := by
  rcases compute_vbi_cases inp st with ⟨reason, hq⟩ | hs
  · rw [hq] at h
    simp [degraded] at h
  · exact hs

/-! ### Helper lemmas: score components -/

lemma slopeBonus_cases (s : ℚ) : slopeBonus s = 0 ∨ slopeBonus s = 40 ∨ slopeBonus s = 60 := by
  unfold slopeBonus IV_SLOPE_MEDIUM IV_SLOPE_STRONG
  split_ifs with h1 h2 h2 <;> norm_num
  linarith

lemma histBonus_cases (h : List ℚ) (x : ℚ) : histBonus h x = 0 ∨ histBonus h x = 20 := by
  unfold histBonus
  split_ifs <;> simp

lemma skewAdj_none : skewAdj none = 0 := rfl

lemma skewAdj_some (s : ℚ) :
    skewAdj (some s) =
      (if |s - 1| < SKEW_NEUTRAL_BAND then 10 else 0) +
      (if SKEW_EXTREME_BAND < |s - 1| then (-10) else 0) := rfl

lemma skewField_none : skewField none = none := rfl

lemma skewField_some (s : ℚ) :
    skewField (some s) = if s = 0 then none else some (pyRound 3 s) := rfl

lemma skewAdj_cases (sk : Option ℚ) : skewAdj sk = -10 ∨ skewAdj sk = 0 ∨ skewAdj sk = 10 := by
  rcases sk with _ | s
  · simp [skewAdj_none]
  · rw [skewAdj_some]
    unfold SKEW_NEUTRAL_BAND SKEW_EXTREME_BAND
    split_ifs with h1 h2 h2 <;> norm_num

lemma clampScore_bounds (s : ℤ) : 0 ≤ clampScore s ∧ clampScore s ≤ 100 := by
  unfold clampScore
  constructor
  · exact le_max_left 0 _
  · rcases le_total s 100 with h | h <;> simp [max_def, min_def] <;> omega

/-- Enumeration of the possible raw and clamped scores. -/
lemma clamp_raw_bound (a b c : ℤ) (ha : a = 0 ∨ a = 40 ∨ a = 60) (hb : b = 0 ∨ b = 20)
    (hc : c = -10 ∨ c = 0 ∨ c = 10) :
    clampScore (a + b + c) ≤ 90 ∧
      (60 < clampScore (a + b + c) →
        clampScore (a + b + c) = 70 ∨ clampScore (a + b + c) = 80 ∨ clampScore (a + b + c) = 90) := by
  rcases ha with h | h | h <;> rcases hb with h' | h' <;> rcases hc with h'' | h'' | h'' <;>
    subst h <;> subst h' <;> subst h'' <;> decide

/-! ### Helper lemmas: pyRound on integer-valued inputs -/

lemma pyRound_eval (n : ℕ) (x : ℚ) (f : ℤ) (h : x * 10 ^ n = (f : ℚ)) :
    pyRound n x = (f : ℚ) / 10 ^ n := by
  simp only [pyRound]
  rw [h, Int.floor_intCast]
  norm_num

/-! ### Helper lemmas: deque append -/

lemma dequeAppend_length_le (xs : List ℚ) (x : ℚ) :
    (dequeAppend PATTERN_WINDOW xs x).length ≤ 3 := by
  simp [dequeAppend, PATTERN_WINDOW]
  omega

lemma dequeAppend_full (xs : List ℚ) (x : ℚ) (h : xs.length = 3) :
    dequeAppend PATTERN_WINDOW xs x = xs.tail ++ [x] := by
  rcases xs with _ | ⟨a, xs1⟩
  · simp at h
  rcases xs1 with _ | ⟨b, xs2⟩
  · simp at h
  rcases xs2 with _ | ⟨c, xs3⟩
  · simp at h
  rcases xs3 with _ | ⟨d, xs4⟩
  · simp [dequeAppend, PATTERN_WINDOW]
  · simp only [List.length_cons] at h
    omega

lemma dequeAppend_small (xs : List ℚ) (x : ℚ) (h : xs.length < 3) :
    dequeAppend PATTERN_WINDOW xs x = xs ++ [x] := by
  simp only [dequeAppend, PATTERN_WINDOW, List.length_append, List.length_cons,
    List.length_nil]
  rw [show xs.length + (0 + 1) - 3 = 0 by omega, List.drop_zero]

/-! ### Helper lemmas: DTE buckets -/

lemma fillBuckets_nil (now : ℤ) : fillBuckets now [] = ([], [], []) := rfl

lemma fillBuckets_cons (now : ℤ) (o : Instrument) (os : List Instrument) :
    fillBuckets now (o :: os) =
      (if (3 : ℚ) ≤ dte_days now o.expiration_timestamp ∧
          dte_days now o.expiration_timestamp ≤ 14 then
        (o.expiration_timestamp :: (fillBuckets now os).1,
         (fillBuckets now os).2.1, (fillBuckets now os).2.2)
      else if (14 : ℚ) ≤ dte_days now o.expiration_timestamp ∧
          dte_days now o.expiration_timestamp ≤ 45 then
        ((fillBuckets now os).1,
         o.expiration_timestamp :: (fillBuckets now os).2.1, (fillBuckets now os).2.2)
      else if (45 : ℚ) ≤ dte_days now o.expiration_timestamp ∧
          dte_days now o.expiration_timestamp ≤ 120 then
        ((fillBuckets now os).1, (fillBuckets now os).2.1,
         o.expiration_timestamp :: (fillBuckets now os).2.2)
      else fillBuckets now os) := rfl

lemma mem_fillBuckets_near (now : ℤ) (l : List Instrument) :
    ∀ e ∈ (fillBuckets now l).1,
      (3 : ℚ) ≤ dte_days now e ∧ dte_days now e ≤ 14 := by
  induction l with
  | nil => intro e he; simp [fillBuckets_nil] at he
  | cons o os ih =>
    intro e he
    rw [fillBuckets_cons] at he
    split_ifs at he with h1 h2 h3
    · rcases List.mem_cons.mp he with rfl | he
      · exact h1
      · exact ih e he
    · exact ih e he
    · exact ih e he
    · exact ih e he

lemma mem_fillBuckets_mid (now : ℤ) (l : List Instrument) :
    ∀ e ∈ (fillBuckets now l).2.1,
      (14 : ℚ) ≤ dte_days now e ∧ dte_days now e ≤ 45 := by
  induction l with
  | nil => intro e he; simp [fillBuckets_nil] at he
  | cons o os ih =>
    intro e he
    rw [fillBuckets_cons] at he
    split_ifs at he with h1 h2 h3
    · exact ih e he
    · rcases List.mem_cons.mp he with rfl | he
      · exact h2
      · exact ih e he
    · exact ih e he
    · exact ih e he

lemma mem_fillBuckets_far (now : ℤ) (l : List Instrument) :
    ∀ e ∈ (fillBuckets now l).2.2,
      (45 : ℚ) ≤ dte_days now e ∧ dte_days now e ≤ 120 := by
  induction l with
  | nil => intro e he; simp [fillBuckets_nil] at he
  | cons o os ih =>
    intro e he
    rw [fillBuckets_cons] at he
    split_ifs at he with h1 h2 h3
    · exact ih e he
    · exact ih e he
    · rcases List.mem_cons.mp he with rfl | he
      · exact h3
      · exact ih e he
    · exact ih e he

lemma fillBuckets_covers (now : ℤ) (l : List Instrument) :
    ∀ o ∈ l, 3 ≤ dte_days now o.expiration_timestamp →
      dte_days now o.expiration_timestamp ≤ 120 →
      o.expiration_timestamp ∈ (fillBuckets now l).1 ∨
      o.expiration_timestamp ∈ (fillBuckets now l).2.1 ∨
      o.expiration_timestamp ∈ (fillBuckets now l).2.2 := by
  induction l with
  | nil => intro o ho; simp at ho
  | cons p os ih =>
    intro o ho h3 h120
    rw [fillBuckets_cons]
    rcases List.mem_cons.mp ho with rfl | ho
    · split_ifs with h1 h2 hf
      · exact Or.inl (List.mem_cons_self _ _)
      · exact Or.inr (Or.inl (List.mem_cons_self _ _))
      · exact Or.inr (Or.inr (List.mem_cons_self _ _))
      · exfalso
        simp only [not_and, not_le] at h1 h2 hf
        have d14 := h1 h3
        have d45 := h2 (by linarith)
        have := hf (by linarith)
        linarith
    · rcases ih o ho h3 h120 with hm | hm | hm
      · split_ifs <;>
          first
            | exact Or.inl (List.mem_cons_of_mem _ hm)
            | exact Or.inl hm
      · split_ifs <;>
          first
            | exact Or.inr (Or.inl (List.mem_cons_of_mem _ hm))
            | exact Or.inr (Or.inl hm)
      · split_ifs <;>
          first
            | exact Or.inr (Or.inr (List.mem_cons_of_mem _ hm))
            | exact Or.inr (Or.inr hm)

/-! ### Helper lemmas: the alerting state machine -/

lemma alertStep_ok (st : AlertState) : alertStep st false = (⟨0, false⟩, false) := rfl

lemma alertStep_deg (st : AlertState) :
    alertStep st true =
      if 3 ≤ st.degraded_cycles + 1 ∧ st.alert_sent = false then
        (⟨st.degraded_cycles + 1, true⟩, true)
      else (⟨st.degraded_cycles + 1, st.alert_sent⟩, false) := rfl

lemma runAlerts_nil (st : AlertState) : runAlerts st [] = [] := rfl

lemma runAlerts_cons (st : AlertState) (b : Bool) (bs : List Bool) :
    runAlerts st (b :: bs) = (alertStep st b).2 :: runAlerts (alertStep st b).1 bs := rfl

lemma runAlertsSt_nil (st : AlertState) : runAlertsSt st [] = st := rfl

lemma runAlertsSt_cons (st : AlertState) (b : Bool) (bs : List Bool) :
    runAlertsSt st (b :: bs) = runAlertsSt (alertStep st b).1 bs := rfl

lemma streaks_cons (c : ℕ) (b : Bool) (bs : List Bool) :
    streaks c (b :: bs) = (if b then c + 1 else 0) :: streaks (if b then c + 1 else 0) bs := rfl

lemma streakEnd_cons (c : ℕ) (b : Bool) (bs : List Bool) :
    streakEnd c (b :: bs) = streakEnd (if b then c + 1 else 0) bs := rfl

lemma streaks_cons_false (c : ℕ) (bs : List Bool) :
    streaks c (false :: bs) = 0 :: streaks 0 bs := rfl

lemma streaks_cons_true (c : ℕ) (bs : List Bool) :
    streaks c (true :: bs) = (c + 1) :: streaks (c + 1) bs := rfl

lemma streakEnd_cons_false (c : ℕ) (bs : List Bool) :
    streakEnd c (false :: bs) = streakEnd 0 bs := rfl

lemma streakEnd_cons_true (c : ℕ) (bs : List Bool) :
    streakEnd c (true :: bs) = streakEnd (c + 1) bs := rfl

/-- On the reachable states (latch ↔ counter already ≥ 3), the machine
fires exactly when the degraded streak length hits 3, and the final
counter is the final streak length. -/
lemma runAlerts_spec (l : List Bool) :
    ∀ c : ℕ,
      runAlerts ⟨c, decide (3 ≤ c)⟩ l = (streaks c l).map (fun k => decide (k = 3)) ∧
      runAlertsSt ⟨c, decide (3 ≤ c)⟩ l = ⟨streakEnd c l, decide (3 ≤ streakEnd c l)⟩ := by
  induction l with
  | nil => intro c; exact ⟨rfl, rfl⟩
  | cons b bs ih =>
    intro c
    cases b with
    | false =>
      have hstep : alertStep ⟨c, decide (3 ≤ c)⟩ false = (⟨0, decide (3 ≤ 0)⟩, false) :=
        alertStep_ok _
      constructor
      · rw [runAlerts_cons, hstep, streaks_cons_false]
        rw [List.map_cons, (ih 0).1]
        all_goals rfl
      · rw [runAlertsSt_cons, hstep, streakEnd_cons_false]
        exact (ih 0).2
    | true =>
      have hkey : alertStep ⟨c, decide (3 ≤ c)⟩ true =
          (⟨c + 1, decide (3 ≤ c + 1)⟩, decide (c + 1 = 3)) := by
        rw [alertStep_deg]
        by_cases h : 3 ≤ c + 1 ∧ decide (3 ≤ c) = false
        · rw [if_pos h]
          rcases h with ⟨h1, h2⟩
          rw [decide_eq_false_iff_not] at h2
          have hc : c + 1 = 3 := by omega
          simp [hc]
        · rw [if_neg h]
          have hc : ¬ c + 1 = 3 := by
            intro hc
            refine h ⟨by omega, ?_⟩
            rw [decide_eq_false_iff_not]
            omega
          have hsent : decide (3 ≤ c) = decide (3 ≤ c + 1) := by
            rw [decide_eq_decide]
            omega
          simp [hsent, hc]
      constructor
      · rw [runAlerts_cons, hkey, streaks_cons_true]
        rw [List.map_cons, (ih (c + 1)).1]
      · rw [runAlertsSt_cons, hkey, streakEnd_cons_true]
        exact (ih (c + 1)).2

/-! ### Helper lemmas: concrete evaluations -/

/-- Plumbing from fetched data to the scoring step. -/
lemma compute_vbi_pipeline (inp : MarketInput) (st : VbiState)
    {e1 e2 e3 : ℤ} (hp : pick_rolling_expiries inp.now inp.options = (some e1, some e2, some e3))
    (hz : ¬(e1 = 0 ∨ e2 = 0 ∨ e3 = 0))
    {nc np mc fc : Instrument}
    (h1 : atm_option inp.options e1 "call" inp.spot = some nc)
    (h2 : atm_option inp.options e1 "put" inp.spot = some np)
    (h3 : atm_option inp.options e2 "call" inp.spot = some mc)
    (h4 : atm_option inp.options e3 "call" inp.spot = some fc)
    {bn bp bm bf : Book}
    (hb1 : inp.books nc.instrument_name = some bn)
    (hb2 : inp.books np.instrument_name = some bp)
    (hb3 : inp.books mc.instrument_name = some bm)
    (hb4 : inp.books fc.instrument_name = some bf)
    {vn vm vf : ℚ}
    (hv1 : bn.mark_iv = some vn) (hv3 : bm.mark_iv = some vm) (hv4 : bf.mark_iv = some vf) :
    compute_vbi inp st = scoreStep vn bp.mark_iv vm vf st := by
  unfold compute_vbi
  simp only [hp, hz, h1, h2, h3, h4, hb1, hb2, hb3, hb4, hv1, hv3, hv4, if_false, if_neg hz]

lemma fillBuckets_optsA :
    fillBuckets 0 optsA = ([691200000, 691200000], [2592000000], [6912000000]) := by
  norm_num [optsA, fillBuckets_cons, fillBuckets_nil, dte_days]

lemma pick_optsA :
    pick_rolling_expiries 0 optsA = (some 691200000, some 2592000000, some 6912000000) := by
  simp only [pick_rolling_expiries, fillBuckets_optsA]
  norm_num [pick, pyMinBy, bucketMid, dte_days,
    NEAR_DTE_RANGE, MID_DTE_RANGE, FAR_DTE_RANGE]

lemma atm_ncall : atm_option optsA 691200000 "call" 100 = some ⟨691200000, "call", 100, 1⟩ := by
  simp [atm_option, optsA, pyMinBy, List.filter_cons, List.filter_nil]

lemma atm_nput : atm_option optsA 691200000 "put" 100 = some ⟨691200000, "put", 100, 2⟩ := by
  simp [atm_option, optsA, pyMinBy, List.filter_cons, List.filter_nil]

lemma atm_mcall : atm_option optsA 2592000000 "call" 100 = some ⟨2592000000, "call", 100, 3⟩ := by
  simp [atm_option, optsA, pyMinBy, List.filter_cons, List.filter_nil]

lemma atm_fcall : atm_option optsA 6912000000 "call" 100 = some ⟨6912000000, "call", 100, 4⟩ := by
  simp [atm_option, optsA, pyMinBy, List.filter_cons, List.filter_nil]

lemma pyRound2_12 : pyRound 2 (12 : ℚ) = 12 := by
  rw [pyRound_eval 2 12 1200 (by norm_num)]; norm_num

lemma pyRound2_16 : pyRound 2 (16 : ℚ) = 16 := by
  rw [pyRound_eval 2 16 1600 (by norm_num)]; norm_num

lemma pyRound2_21 : pyRound 2 (21 : ℚ) = 21 := by
  rw [pyRound_eval 2 21 2100 (by norm_num)]; norm_num

lemma pyRound2_slope1 : pyRound 2 ((16 : ℚ) - 12) = 4 := by
  rw [pyRound_eval 2 (16 - 12) 400 (by norm_num)]; norm_num

lemma pyRound2_curv1 : pyRound 2 (((21 : ℚ) - 16) - ((16 : ℚ) - 12)) = 1 := by
  rw [pyRound_eval 2 ((21 - 16) - (16 - 12)) 100 (by norm_num)]; norm_num

lemma pyRound3_1 : pyRound 3 (1 : ℚ) = 1 := by
  rw [pyRound_eval 3 1 1000 (by norm_num)]; norm_num

lemma scoreStep_eval1 :
    scoreStep 12 (some 12) 16 21 stHist1 =
      (VbiResult.okResult okData1, ⟨[1, 2, 4], [12, 12, 12]⟩) := by
  rw [scoreStep_ok 16 21 stHist1
    (show computeSkew 12 (some 12) = Except.ok (some 1) by norm_num [computeSkew])]
  rw [pyRound2_12, pyRound2_16, pyRound2_21, pyRound2_slope1, pyRound2_curv1]
  norm_num [okData1, stHist1, dequeAppend, rawScore, slopeBonus, histBonus, skewAdj_some,
    meanQ, clampScore, stateOf, skewField, pyRound3_1, IV_SLOPE_MEDIUM, IV_SLOPE_STRONG,
    SKEW_NEUTRAL_BAND, SKEW_EXTREME_BAND, PATTERN_WINDOW]

lemma eval1 :
    compute_vbi exInput1 stHist1 = (VbiResult.okResult okData1, ⟨[1, 2, 4], [12, 12, 12]⟩) := by
  rw [compute_vbi_pipeline exInput1 stHist1 pick_optsA (by norm_num)
    atm_ncall atm_nput atm_mcall atm_fcall rfl rfl rfl rfl rfl rfl rfl]
  exact scoreStep_eval1

lemma pyRound2_50 : pyRound 2 (50 : ℚ) = 50 := by
  rw [pyRound_eval 2 50 5000 (by norm_num)]; norm_num

lemma pyRound2_52 : pyRound 2 (52 : ℚ) = 52 := by
  rw [pyRound_eval 2 52 5200 (by norm_num)]; norm_num

lemma pyRound2_53 : pyRound 2 (53 : ℚ) = 53 := by
  rw [pyRound_eval 2 53 5300 (by norm_num)]; norm_num

lemma pyRound2_slope2 : pyRound 2 ((52 : ℚ) - 50) = 2 := by
  rw [pyRound_eval 2 (52 - 50) 200 (by norm_num)]; norm_num

lemma pyRound2_curv2 : pyRound 2 (((53 : ℚ) - 52) - ((52 : ℚ) - 50)) = -1 := by
  rw [pyRound_eval 2 ((53 - 52) - (52 - 50)) (-100) (by norm_num)]; norm_num

lemma scoreStep_eval2 :
    scoreStep 50 (some 0) 52 53 st0 = (VbiResult.okResult okData2, ⟨[2], [50]⟩) := by
  rw [scoreStep_ok 52 53 st0
    (show computeSkew 50 (some 0) = Except.ok (some 0) by norm_num [computeSkew])]
  rw [pyRound2_50, pyRound2_52, pyRound2_53, pyRound2_slope2, pyRound2_curv2]
  norm_num [okData2, st0, dequeAppend, rawScore, slopeBonus, histBonus, skewAdj_some,
    meanQ, clampScore, stateOf, skewField, IV_SLOPE_MEDIUM, IV_SLOPE_STRONG,
    SKEW_NEUTRAL_BAND, SKEW_EXTREME_BAND, PATTERN_WINDOW]

lemma eval2 :
    compute_vbi exInput2 st0 = (VbiResult.okResult okData2, ⟨[2], [50]⟩) := by
  rw [compute_vbi_pipeline exInput2 st0 pick_optsA (by norm_num)
    atm_ncall atm_nput atm_mcall atm_fcall rfl rfl rfl rfl rfl rfl rfl]
  exact scoreStep_eval2

lemma eval3 : compute_vbi exInput3 st0 = (degraded "exception", st0) := by
  rw [compute_vbi_pipeline exInput3 st0 pick_optsA (by norm_num)
    atm_ncall atm_nput atm_mcall atm_fcall rfl rfl rfl rfl rfl rfl rfl]
  exact scoreStep_error 16 17 st0 (by norm_num [computeSkew])

lemma eval0 : compute_vbi exInput0 st0 = (degraded "no_expiries", st0) := rfl

lemma pyRound3_skew104 : pyRound 3 ((26 : ℚ) / 25) = 26/25 := by
  rw [pyRound_eval 3 (26/25) 1040 (by norm_num)]; norm_num

lemma skewAdj_104 : skewAdj (some ((26 : ℚ) / 25)) = 10 := by
  rw [skewAdj_some]
  rw [show |((26 : ℚ)/25) - 1| = 1/25 by rw [show ((26 : ℚ)/25) - 1 = 1/25 by norm_num, abs_of_nonneg (by norm_num)]]
  norm_num [SKEW_NEUTRAL_BAND, SKEW_EXTREME_BAND]

lemma scoreStep_eval2b :
    scoreStep 50 (some 52) 52 53 st0 = (VbiResult.okResult okData2b, ⟨[2], [50]⟩) := by
  rw [scoreStep_ok 52 53 st0
    (show computeSkew 50 (some 52) = Except.ok (some (52/50)) by norm_num [computeSkew])]
  rw [pyRound2_50, pyRound2_52, pyRound2_53, pyRound2_slope2, pyRound2_curv2]
  norm_num [okData2b, st0, dequeAppend, rawScore, slopeBonus, histBonus, skewAdj_104,
    meanQ, clampScore, stateOf, skewField, pyRound3_skew104, IV_SLOPE_MEDIUM,
    IV_SLOPE_STRONG, PATTERN_WINDOW]

lemma pyRound2_17 : pyRound 2 (17 : ℚ) = 17 := by
  rw [pyRound_eval 2 17 1700 (by norm_num)]; norm_num

lemma pyRound2_curv3 : pyRound 2 (((17 : ℚ) - 16) - ((16 : ℚ) - 12)) = -3 := by
  rw [pyRound_eval 2 ((17 - 16) - (16 - 12)) (-300) (by norm_num)]; norm_num

lemma scoreStep_eval3c :
    scoreStep 12 (some 12) 16 17 st0 = (VbiResult.okResult okData3, ⟨[4], [12]⟩) := by
  rw [scoreStep_ok 16 17 st0
    (show computeSkew 12 (some 12) = Except.ok (some 1) by norm_num [computeSkew])]
  rw [pyRound2_12, pyRound2_16, pyRound2_17, pyRound2_slope1, pyRound2_curv3]
  norm_num [okData3, st0, dequeAppend, rawScore, slopeBonus, histBonus, skewAdj_some,
    meanQ, clampScore, stateOf, skewField, pyRound3_1, IV_SLOPE_MEDIUM, IV_SLOPE_STRONG,
    SKEW_NEUTRAL_BAND, SKEW_EXTREME_BAND, PATTERN_WINDOW]

lemma stateOf_hot {s : ℤ} (h : stateOf s = "HOT") : 60 < s := by
  unfold stateOf at h
  split_ifs at h with hc hw
  · exact absurd h (by decide)
  · exact absurd h (by decide)
  · omega

/-! ### Claims -/

/-- C1 (counterexample): at a concrete input whose post-append histories
hold three entries and satisfy every `PRE_BREAK` condition of the
specification (`spec_vbi_pattern` yields `"PRE_BREAK"`), the ok result of
`compute_vbi` nevertheless carries no `vbi_pattern` at all — the returned
dict has no such key (modelled as the constantly-`none` field). -/
theorem C1_pattern_counterexample :
    okPattern (compute_vbi exInput1 stHist1).1 = some none ∧
    (compute_vbi exInput1 stHist1).2 = ⟨[1, 2, 4], [12, 12, 12]⟩ ∧
    spec_vbi_pattern [1, 2, 4] [12, 12, 12] 12 4 1 (some 1) = "PRE_BREAK" ∧
    okData1.iv_slope = 4 ∧ okData1.curvature = 1 ∧ okData1.skew = some 1 := by
  refine ⟨?_, ?_, ?_, rfl, rfl, rfl⟩
  · rw [eval1]; rfl
  · rw [eval1]
  · norm_num [spec_vbi_pattern, skewNeutral, PATTERN_WINDOW, NEAR_IV_STABILITY,
      SKEW_NEUTRAL_BAND]

/-- C1 (amended): every ok result of `compute_vbi` carries no
`vbi_pattern`; the classification described by the specification is not
implemented (the result dict of the code has no `vbi_pattern` key). -/
theorem C1_pattern_amended (inp : MarketInput) (st : VbiState) :
    ∀ d, (compute_vbi inp st).1 = VbiResult.okResult d → d.vbi_pattern = none := by
  intro d h
  rcases compute_vbi_cases inp st with ⟨reason, hq⟩ | ⟨a, b, c, e, hs⟩
  · have hq1 : (compute_vbi inp st).1 = degraded reason := by rw [hq]
    rw [hq1] at h
    simp [degraded] at h
  · rw [hs] at h
    rcases hsk : computeSkew a b with u | sk
    · cases u
      rw [scoreStep_error c e st hsk] at h
      simp [degraded] at h
    · rw [scoreStep_ok c e st hsk] at h
      simp only [VbiResult.okResult.injEq] at h
      subst h
      rfl

/-- Witness for C1 (amended) at `exInput1`. -/
theorem C1_witness : okData1.vbi_pattern = none :=
  C1_pattern_amended exInput1 stHist1 okData1 (by rw [eval1])

/-- C2 (counterexample): with near-call mark IV 50 (non-zero) and
near-put mark IV 0, the computed skew is `0` and the ok result reports the
`skew` field as null (Python `round(skew, 3) if skew else None` treats the
float `0.0` as falsy), contradicting "skew is null exactly when
near_call_iv = 0". -/
theorem C2_skew_counterexample :
    okSkew (compute_vbi exInput2 st0).1 = some none ∧
    exInput2.books 1 = some ⟨some 50⟩ ∧
    exInput2.books 2 = some ⟨some 0⟩ ∧
    (50 : ℚ) ≠ 0 := by
  refine ⟨?_, rfl, rfl, by norm_num⟩
  rw [eval2]; rfl

/-- C2 (amended): a zero near-call IV yields skew `None` without raising
(the computation still reaches an ok result, whose skew field is null);
with a non-zero near-call IV the computed skew is `near_put_iv /
near_call_iv`, never an infinity or NaN in the rational model, and the
reported field is that ratio rounded to 3 decimals when the ratio is
non-zero, but null when the ratio is `0` (near_put_iv = 0). -/
theorem C2_skew_amended (near_iv p mid_iv far_iv : ℚ) (np_iv : Option ℚ) (st : VbiState) :
    computeSkew 0 np_iv = Except.ok none ∧
    (∀ reason s sc,
      (scoreStep 0 np_iv mid_iv far_iv st).1 ≠ VbiResult.degradedResult reason s sc) ∧
    (∀ d, (scoreStep 0 np_iv mid_iv far_iv st).1 = VbiResult.okResult d → d.skew = none) ∧
    (near_iv ≠ 0 → computeSkew near_iv (some p) = Except.ok (some (p / near_iv))) ∧
    (near_iv ≠ 0 → p ≠ 0 →
      ∀ d, (scoreStep near_iv (some p) mid_iv far_iv st).1 = VbiResult.okResult d →
        d.skew = some (pyRound 3 (p / near_iv))) ∧
    (near_iv ≠ 0 →
      ∀ d, (scoreStep near_iv (some 0) mid_iv far_iv st).1 = VbiResult.okResult d →
        d.skew = none) := by
  have hz : computeSkew 0 np_iv = Except.ok none := by
    unfold computeSkew
    rw [if_pos rfl]
  refine ⟨hz, ?_, ?_, ?_, ?_, ?_⟩
  · intro reason s sc hcon
    rw [scoreStep_ok mid_iv far_iv st hz] at hcon
    simp at hcon
  · intro d h
    rw [scoreStep_ok mid_iv far_iv st hz] at h
    simp only [VbiResult.okResult.injEq] at h
    subst h
    rfl
  · intro hn
    unfold computeSkew
    rw [if_neg hn]
  · intro hn hp d h
    have hsk : computeSkew near_iv (some p) = Except.ok (some (p / near_iv)) := by
      unfold computeSkew
      rw [if_neg hn]
    rw [scoreStep_ok mid_iv far_iv st hsk] at h
    simp only [VbiResult.okResult.injEq] at h
    subst h
    exact (show skewField (some (p / near_iv)) = some (pyRound 3 (p / near_iv)) by
      rw [skewField_some, if_neg (div_ne_zero hp hn)])
  · intro hn d h
    have hsk : computeSkew near_iv (some 0) = Except.ok (some 0) := by
      unfold computeSkew
      rw [if_neg hn]
      norm_num
    rw [scoreStep_ok mid_iv far_iv st hsk] at h
    simp only [VbiResult.okResult.injEq] at h
    subst h
    exact (show skewField (some 0) = none by rw [skewField_some, if_pos rfl])

/-- Witness for C2 (amended): the spec scenario `near_call_iv = 50,
near_put_iv = 52` reports skew `round(1.04, 3)`, and `near_put_iv = 0`
reports null. -/
theorem C2_witness :
    okData2b.skew = some (pyRound 3 ((52 : ℚ) / 50)) ∧ okData2.skew = none :=
  ⟨(C2_skew_amended 50 52 52 53 (some 52) st0).2.2.2.2.1 (by norm_num) (by norm_num)
      okData2b (by rw [scoreStep_eval2b]),
   (C2_skew_amended 50 0 52 53 (some 0) st0).2.2.2.2.2 (by norm_num)
      okData2 (by rw [scoreStep_eval2])⟩

/-- C3: for every ok scoring step, the reported `iv_slope` is
`round(mid_iv - near_iv, 2)` and the reported `curvature` is
`round((far_iv - mid_iv) - (mid_iv - near_iv), 2)`; the slope rules add
+40 for `iv_slope > 3` plus another +20 for `iv_slope > 6` (together +60),
nothing at or below 3; and the spec scenario `near=12, mid=16, far=17`
gives slope 4 with exactly the +40 bonus and curvature -3. -/
theorem C3_slope_curvature (near_iv mid_iv far_iv : ℚ) (np_iv : Option ℚ) (st : VbiState) :
    (∀ d, (scoreStep near_iv np_iv mid_iv far_iv st).1 = VbiResult.okResult d →
        d.iv_slope = pyRound 2 (mid_iv - near_iv) ∧
        d.curvature = pyRound 2 ((far_iv - mid_iv) - (mid_iv - near_iv))) ∧
    (∀ s : ℚ, IV_SLOPE_MEDIUM < s →
        slopeBonus s = 40 + (if IV_SLOPE_STRONG < s then 20 else 0)) ∧
    (∀ s : ℚ, IV_SLOPE_STRONG < s → slopeBonus s = 60) ∧
    (∀ s : ℚ, s ≤ IV_SLOPE_MEDIUM → slopeBonus s = 0) ∧
    ((16 : ℚ) - 12 = 4 ∧ slopeBonus 4 = 40 ∧ ((17 : ℚ) - 16) - ((16 : ℚ) - 12) = -3) := by
  refine ⟨?_, ?_, ?_, ?_, by norm_num, ?_, by norm_num⟩
  · intro d h
    rcases hsk : computeSkew near_iv np_iv with u | sk
    · cases u
      rw [scoreStep_error mid_iv far_iv st hsk] at h
      simp [degraded] at h
    · rw [scoreStep_ok mid_iv far_iv st hsk] at h
      simp only [VbiResult.okResult.injEq] at h
      subst h
      exact ⟨rfl, rfl⟩
  · intro s hm
    unfold slopeBonus
    rw [if_pos hm]
  · intro s hs
    have hm : IV_SLOPE_MEDIUM < s := by
      unfold IV_SLOPE_MEDIUM
      unfold IV_SLOPE_STRONG at hs
      linarith
    unfold slopeBonus
    rw [if_pos hm, if_pos hs]
    norm_num
  · intro s hle
    unfold slopeBonus
    rw [if_neg (not_lt.mpr hle), if_neg ?hstrong]
    · norm_num
    case hstrong =>
      unfold IV_SLOPE_MEDIUM at hle
      unfold IV_SLOPE_STRONG
      intro hcon
      linarith
  · norm_num [slopeBonus, IV_SLOPE_MEDIUM, IV_SLOPE_STRONG]

/-- Witness for C3: the `near=12, mid=16, far=17` scenario. -/
theorem C3_witness :
    okData3.iv_slope = pyRound 2 ((16 : ℚ) - 12) ∧
    okData3.curvature = pyRound 2 (((17 : ℚ) - 16) - ((16 : ℚ) - 12)) ∧
    slopeBonus 4 = 40 + (if IV_SLOPE_STRONG < (4 : ℚ) then 20 else 0) :=
  ⟨((C3_slope_curvature 12 16 17 (some 12) st0).1 okData3 (by rw [scoreStep_eval3c])).1,
   ((C3_slope_curvature 12 16 17 (some 12) st0).1 okData3 (by rw [scoreStep_eval3c])).2,
   (C3_slope_curvature 12 16 17 (some 12) st0).2.1 4
     (by norm_num [IV_SLOPE_MEDIUM])⟩

/-- C4: the per-currency histories are bounded FIFOs of capacity 3 — an
append never leaves more than 3 entries, appending to a full history drops
the oldest entry, appending to a short history keeps all entries;
`compute_vbi` preserves the length bound; the +20 historical bonus fires
exactly when the just-updated history holds at least 3 entries and the
current near IV strictly exceeds its arithmetic mean; the ok score is the
clamp of the raw sum whose historical term reads the appended history; and
after appends of 10, 12, 14 the history is `[10, 12, 14]` with mean 12,
a 4th append evicting the 10. -/
theorem C4_history_fifo (inp : MarketInput) (st : VbiState) (xs : List ℚ) (x : ℚ) :
    (dequeAppend PATTERN_WINDOW xs x).length ≤ 3 ∧
    (xs.length = 3 → dequeAppend PATTERN_WINDOW xs x = xs.tail ++ [x]) ∧
    (xs.length < 3 → dequeAppend PATTERN_WINDOW xs x = xs ++ [x]) ∧
    (st.ivSlopeHist.length ≤ 3 → st.nearIvHist.length ≤ 3 →
      (compute_vbi inp st).2.ivSlopeHist.length ≤ 3 ∧
      (compute_vbi inp st).2.nearIvHist.length ≤ 3) ∧
    (∀ h niv, histBonus h niv = if 3 ≤ h.length ∧ meanQ h < niv then 20 else 0) ∧
    (∀ near_iv np_iv mid_iv far_iv d,
        (scoreStep near_iv np_iv mid_iv far_iv st).1 = VbiResult.okResult d →
        ∃ sk, computeSkew near_iv np_iv = Except.ok sk ∧
          d.vbi_score = clampScore (rawScore (mid_iv - near_iv)
            (dequeAppend PATTERN_WINDOW st.nearIvHist near_iv) near_iv sk)) ∧
    (dequeAppend PATTERN_WINDOW
        (dequeAppend PATTERN_WINDOW (dequeAppend PATTERN_WINDOW [] 10) 12) 14 =
      [10, 12, 14] ∧
      meanQ [10, 12, 14] = 12 ∧
      dequeAppend PATTERN_WINDOW [10, 12, 14] 16 = [12, 14, 16]) := by
  refine ⟨dequeAppend_length_le xs x, dequeAppend_full xs x, dequeAppend_small xs x,
    ?_, fun h niv => rfl, ?_, by norm_num [dequeAppend, PATTERN_WINDOW],
    by norm_num [meanQ], by norm_num [dequeAppend, PATTERN_WINDOW]⟩
  · intro hs hn
    rcases compute_vbi_cases inp st with ⟨reason, hq⟩ | ⟨a, b, c, e, hsc⟩
    · have hq2 : (compute_vbi inp st).2 = st := by rw [hq]
      rw [hq2]
      exact ⟨hs, hn⟩
    · rw [hsc]
      rcases hsk : computeSkew a b with u | sk
      · cases u
        rw [scoreStep_error c e st hsk]
        exact ⟨hs, hn⟩
      · rw [scoreStep_ok c e st hsk]
        exact ⟨dequeAppend_length_le _ _, dequeAppend_length_le _ _⟩
  · intro near_iv np_iv mid_iv far_iv d h
    rcases hsk : computeSkew near_iv np_iv with u | sk
    · cases u
      rw [scoreStep_error mid_iv far_iv st hsk] at h
      simp [degraded] at h
    · rw [scoreStep_ok mid_iv far_iv st hsk] at h
      simp only [VbiResult.okResult.injEq] at h
      subst h
      exact ⟨sk, rfl, rfl⟩

/-- Witness for C4: eviction of the oldest entry from a full history, and
length preservation at `exInput1`. -/
theorem C4_witness :
    dequeAppend PATTERN_WINDOW [10, 12, 14] 16 = ([10, 12, 14] : List ℚ).tail ++ [16] ∧
    (compute_vbi exInput1 stHist1).2.ivSlopeHist.length ≤ 3 :=
  ⟨(C4_history_fifo exInput1 stHist1 [10, 12, 14] 16).2.1 (by norm_num),
   ((C4_history_fifo exInput1 stHist1 [10, 12, 14] 16).2.2.2.1
      (by norm_num [stHist1]) (by norm_num [stHist1])).1⟩

/-- C5: ladder selection — the DTE ranges are the configured (3,14),
(14,45), (45,120); every bucket member has its days-to-expiry inside that
bucket's inclusive range; every option with DTE in [3,120] lands in one of
the buckets; `pick` returns `none` exactly on an empty bucket, and
otherwise a member whose distance to the bucket midpoint is minimal,
namely the first such member in iteration order; and whenever any rung of
`pick_rolling_expiries` is absent, `compute_vbi` degrades with reason
`no_expiries` leaving the state unchanged. -/
theorem C5_ladder_selection (now : ℤ) (options : List Instrument) :
    (NEAR_DTE_RANGE = (3, 14) ∧ MID_DTE_RANGE = (14, 45) ∧ FAR_DTE_RANGE = (45, 120)) ∧
    (∀ e ∈ (fillBuckets now options).1,
        3 ≤ dte_days now e ∧ dte_days now e ≤ 14) ∧
    (∀ e ∈ (fillBuckets now options).2.1,
        14 ≤ dte_days now e ∧ dte_days now e ≤ 45) ∧
    (∀ e ∈ (fillBuckets now options).2.2,
        45 ≤ dte_days now e ∧ dte_days now e ≤ 120) ∧
    (∀ o ∈ options, 3 ≤ dte_days now o.expiration_timestamp →
        dte_days now o.expiration_timestamp ≤ 120 →
        o.expiration_timestamp ∈ (fillBuckets now options).1 ∨
        o.expiration_timestamp ∈ (fillBuckets now options).2.1 ∨
        o.expiration_timestamp ∈ (fillBuckets now options).2.2) ∧
    (∀ ts_list target, pick now ts_list target = none ↔ ts_list = []) ∧
    (∀ ts_list target t, pick now ts_list target = some t →
        t ∈ ts_list ∧
        (∀ u ∈ ts_list,
          |dte_days now t - bucketMid target| ≤ |dte_days now u - bucketMid target|) ∧
        ∃ l1 l2, ts_list = l1 ++ t :: l2 ∧
          ∀ u ∈ l1,
            |dte_days now t - bucketMid target| < |dte_days now u - bucketMid target|) ∧
    (∀ (spot : ℚ) (books : ℕ → Option Book) (st : VbiState),
        ((pick_rolling_expiries now options).1 = none ∨
         (pick_rolling_expiries now options).2.1 = none ∨
         (pick_rolling_expiries now options).2.2 = none) →
        compute_vbi ⟨now, options, spot, books⟩ st = (degraded "no_expiries", st)) := by
  refine ⟨⟨rfl, rfl, rfl⟩, mem_fillBuckets_near now options, mem_fillBuckets_mid now options,
    mem_fillBuckets_far now options, fillBuckets_covers now options, ?_, ?_, ?_⟩
  · intro ts target
    rw [pick, pyMinBy_eq_firstMinBy]
    exact firstMinBy_none_iff _ _
  · intro ts target t h
    rw [pick, pyMinBy_eq_firstMinBy] at h
    exact ⟨firstMinBy_mem _ _ _ h, firstMinBy_le _ _ t h, firstMinBy_first _ _ _ h⟩
  · intro spot books st habs
    rcases hpk : pick_rolling_expiries now options with ⟨p1, p2, p3⟩
    rw [hpk] at habs
    dsimp only at habs
    unfold compute_vbi
    dsimp only
    rw [hpk]
    rcases p1 with _ | v1 <;> rcases p2 with _ | v2 <;> rcases p3 with _ | v3 <;>
      first
        | rfl
        | simp at habs

/-- Witness for C5: the empty instrument list degrades with
`no_expiries`. -/
theorem C5_witness :
    compute_vbi ⟨0, [], 100, fun _ => none⟩ st0 = (degraded "no_expiries", st0) := by
  obtain ⟨-, -, -, -, -, -, -, hdeg⟩ := C5_ladder_selection 0 []
  exact hdeg 100 (fun _ => none) st0 (Or.inl rfl)

/-- C6: every ok `compute_vbi` result has an integer score clamped into
[0, 100]. -/
theorem C6_score_clamped (inp : MarketInput) (st : VbiState) :
    ∀ d, (compute_vbi inp st).1 = VbiResult.okResult d →
      0 ≤ d.vbi_score ∧ d.vbi_score ≤ 100 := by
  intro d h
  rcases compute_vbi_cases inp st with ⟨reason, hq⟩ | ⟨a, b, c, e, hs⟩
  · have hq1 : (compute_vbi inp st).1 = degraded reason := by rw [hq]
    rw [hq1] at h
    simp [degraded] at h
  · rw [hs] at h
    rcases hsk : computeSkew a b with u | sk
    · cases u
      rw [scoreStep_error c e st hsk] at h
      simp [degraded] at h
    · rw [scoreStep_ok c e st hsk] at h
      simp only [VbiResult.okResult.injEq] at h
      subst h
      exact clampScore_bounds _

/-- Witness for C6 at `exInput1`. -/
theorem C6_witness : 0 ≤ okData1.vbi_score ∧ okData1.vbi_score ≤ 100 :=
  C6_score_clamped exInput1 stHist1 okData1 (by rw [eval1])

/-- C7: the ok state label is the pure function of the score coded at
line 292 (`< 30` COLD, `≤ 60` WARM, else HOT, with boundaries 29 COLD, 30
WARM, 60 WARM, 61 HOT), and every degraded result has state `DEGRADED`
and a null score. -/
theorem C7_state_classification (inp : MarketInput) (st : VbiState) :
    (∀ d, (compute_vbi inp st).1 = VbiResult.okResult d →
        d.vbi_state = stateOf d.vbi_score) ∧
    (∀ reason s sc, (compute_vbi inp st).1 = VbiResult.degradedResult reason s sc →
        s = "DEGRADED" ∧ sc = none) ∧
    (stateOf 29 = "COLD" ∧ stateOf 30 = "WARM" ∧ stateOf 60 = "WARM" ∧ stateOf 61 = "HOT") := by
  refine ⟨?_, ?_, by decide, by decide, by decide, by decide⟩
  · intro d h
    rcases compute_vbi_cases inp st with ⟨reason, hq⟩ | ⟨a, b, c, e, hs⟩
    · have hq1 : (compute_vbi inp st).1 = degraded reason := by rw [hq]
      rw [hq1] at h
      simp [degraded] at h
    · rw [hs] at h
      rcases hsk : computeSkew a b with u | sk
      · cases u
        rw [scoreStep_error c e st hsk] at h
        simp [degraded] at h
      · rw [scoreStep_ok c e st hsk] at h
        simp only [VbiResult.okResult.injEq] at h
        subst h
        rfl
  · intro reason s sc h
    rcases compute_vbi_cases inp st with ⟨r, hq⟩ | ⟨a, b, c, e, hs⟩
    · have hq1 : (compute_vbi inp st).1 = degraded r := by rw [hq]
      rw [hq1] at h
      simp only [degraded, VbiResult.degradedResult.injEq] at h
      exact ⟨h.2.1.symm, h.2.2.symm⟩
    · rw [hs] at h
      rcases hsk : computeSkew a b with u | sk
      · cases u
        rw [scoreStep_error c e st hsk] at h
        simp only [degraded, VbiResult.degradedResult.injEq] at h
        exact ⟨h.2.1.symm, h.2.2.symm⟩
      · rw [scoreStep_ok c e st hsk] at h
        simp [degraded] at h

/-- Witness for C7: the ok side at `exInput1` and the degraded side at
`exInput3`. -/
theorem C7_witness :
    okData1.vbi_state = stateOf okData1.vbi_score ∧
    ("DEGRADED" = "DEGRADED" ∧ (none : Option ℤ) = none) :=
  ⟨(C7_state_classification exInput1 stHist1).1 okData1 (by rw [eval1]),
   (C7_state_classification exInput3 st0).2.1 "exception" "DEGRADED" none
     (by rw [eval3]; rfl)⟩

/-- C8 (counterexample): with the near, mid and far call IVs all present
(12, 16, 17) but the near-put mark IV `None`, the computation degrades
with reason `exception` (the skew division raises before the appends) and
appends nothing to either history — the second half of the claim ("all
required IVs present ⇒ appends exactly one each, even if the result
subsequently degrades with reason exception") fails here. -/
theorem C8_history_counterexample :
    compute_vbi exInput3 st0 = (degraded "exception", st0) ∧
    (compute_vbi exInput3 st0).2.ivSlopeHist = [] ∧
    (compute_vbi exInput3 st0).2.nearIvHist = [] ∧
    exInput3.books 1 = some ⟨some 12⟩ ∧
    exInput3.books 3 = some ⟨some 16⟩ ∧
    exInput3.books 4 = some ⟨some 17⟩ ∧
    exInput3.books 2 = some ⟨none⟩ := by
  refine ⟨eval3, ?_, ?_, rfl, rfl, rfl, rfl⟩
  · rw [eval3]
    rfl
  · rw [eval3]
    rfl

/-- C8 (amended): every degraded `compute_vbi` outcome — any of the four
data reasons or `exception` — leaves the histories unchanged, and exactly
the ok outcomes append one `iv_slope` and one `near_iv` value (the values
whose roundings the result reports). -/
theorem C8_history_amended (inp : MarketInput) (st : VbiState) :
    (∀ reason s sc, (compute_vbi inp st).1 = VbiResult.degradedResult reason s sc →
        (compute_vbi inp st).2 = st) ∧
    (∀ d, (compute_vbi inp st).1 = VbiResult.okResult d →
        ∃ slope niv,
          (compute_vbi inp st).2 =
            ⟨dequeAppend PATTERN_WINDOW st.ivSlopeHist slope,
             dequeAppend PATTERN_WINDOW st.nearIvHist niv⟩ ∧
          d.iv_slope = pyRound 2 slope ∧ d.near_iv = pyRound 2 niv) := by
  constructor
  · intro reason s sc h
    rcases compute_vbi_cases inp st with ⟨r, hq⟩ | ⟨a, b, c, e, hs⟩
    · rw [hq]
    · rw [hs] at h ⊢
      rcases hsk : computeSkew a b with u | sk
      · cases u
        rw [scoreStep_error c e st hsk]
      · rw [scoreStep_ok c e st hsk] at h
        simp [degraded] at h
  · intro d h
    rcases compute_vbi_cases inp st with ⟨r, hq⟩ | ⟨a, b, c, e, hs⟩
    · have hq1 : (compute_vbi inp st).1 = degraded r := by rw [hq]
      rw [hq1] at h
      simp [degraded] at h
    · rw [hs] at h ⊢
      rcases hsk : computeSkew a b with u | sk
      · cases u
        rw [scoreStep_error c e st hsk] at h
        simp [degraded] at h
      · rw [scoreStep_ok c e st hsk] at h ⊢
        simp only [VbiResult.okResult.injEq] at h
        subst h
        exact ⟨c - a, a, rfl, rfl, rfl⟩

/-- Witness for C8 (amended): a degraded run leaves the state unchanged
and an ok run appends one value to each history. -/
theorem C8_witness :
    (compute_vbi exInput0 st0).2 = st0 ∧
    ∃ slope niv,
      (compute_vbi exInput1 stHist1).2 =
        ⟨dequeAppend PATTERN_WINDOW stHist1.ivSlopeHist slope,
         dequeAppend PATTERN_WINDOW stHist1.nearIvHist niv⟩ ∧
      okData1.iv_slope = pyRound 2 slope ∧ okData1.near_iv = pyRound 2 niv :=
  ⟨(C8_history_amended exInput0 st0).1 "no_expiries" "DEGRADED" none (by rw [eval0]; rfl),
   (C8_history_amended exInput1 stHist1).2 okData1 (by rw [eval1])⟩

/-- C9: the orchestrator's per-currency degraded counter increments by one
on each degraded result and resets (with the sent-latch cleared) on each
ok result; starting from the initial state, the alert fires at a cycle
exactly when the streak of consecutive degraded cycles ending there has
length exactly 3 — once per streak — and the final counter equals the
final streak length; on the scenario degraded, degraded, degraded, ok,
degraded, degraded, degraded the alert fires exactly at cycles 3 and 7. -/
theorem C9_alert_streaks :
    (∀ st : AlertState, (alertStep st true).1.degraded_cycles = st.degraded_cycles + 1) ∧
    (∀ st : AlertState, alertStep st false = (⟨0, false⟩, false)) ∧
    (∀ l : List Bool,
        runAlerts ⟨0, false⟩ l = (streaks 0 l).map (fun k => decide (k = 3))) ∧
    (∀ l : List Bool,
        runAlertsSt ⟨0, false⟩ l = ⟨streakEnd 0 l, decide (3 ≤ streakEnd 0 l)⟩) ∧
    runAlerts ⟨0, false⟩ [true, true, true, false, true, true, true] =
      [false, false, true, false, false, false, true] := by
  refine ⟨?_, fun st => rfl, fun l => (runAlerts_spec l 0).1, fun l => (runAlerts_spec l 0).2,
    by decide⟩
  intro st
  rw [alertStep_deg]
  split_ifs <;> rfl

/-- C10: every ok score is at most 90 (the additive rules cannot exceed
40 + 20 + 20 + 10), so the upper clamp never binds, and a HOT state can
only be reported with a score of 70, 80 or 90. -/
theorem C10_max_score (inp : MarketInput) (st : VbiState) :
    ∀ d, (compute_vbi inp st).1 = VbiResult.okResult d →
      d.vbi_score ≤ 90 ∧
      (d.vbi_state = "HOT" →
        d.vbi_score = 70 ∨ d.vbi_score = 80 ∨ d.vbi_score = 90) := by
  intro d h
  rcases compute_vbi_cases inp st with ⟨reason, hq⟩ | ⟨a, b, c, e, hs⟩
  · have hq1 : (compute_vbi inp st).1 = degraded reason := by rw [hq]
    rw [hq1] at h
    simp [degraded] at h
  · rw [hs] at h
    rcases hsk : computeSkew a b with u | sk
    · cases u
      rw [scoreStep_error c e st hsk] at h
      simp [degraded] at h
    · rw [scoreStep_ok c e st hsk] at h
      simp only [VbiResult.okResult.injEq] at h
      subst h
      have hb := clamp_raw_bound (slopeBonus (c - a))
        (histBonus (dequeAppend PATTERN_WINDOW st.nearIvHist a) a) (skewAdj sk)
        (slopeBonus_cases _) (histBonus_cases _ _) (skewAdj_cases _)
      refine ⟨hb.1, ?_⟩
      intro hhot
      exact hb.2 (stateOf_hot hhot)

/-- Witness for C10 at `exInput1` (score 50). -/
theorem C10_witness :
    okData1.vbi_score ≤ 90 ∧
    (okData1.vbi_state = "HOT" →
      okData1.vbi_score = 70 ∨ okData1.vbi_score = 80 ∨ okData1.vbi_score = 90) :=
  C10_max_score exInput1 stHist1 okData1 (by rw [eval1])

end Deribit
